import Mathlib

/- Verification development for the g-xxx BRL-CAD sample converter
(src/g-xxx.c).  The definitions below are a shallow embedding of the C
source: boolean trees are `UTree`, the tree describer is `describe_tree`,
the per-primitive export dispatcher is `primitive_func`, the region-end
callback is `region_end`, and the root loop of `main` is `walkCalls`.
Machine floating point is modelled by exact rationals; the external
`MAGNITUDE` function (a square root, from vmath.h) is passed as an explicit
function parameter `mag` wherever the C code calls it. -/

/- ### Numeric model (vmath.h) -/

/-- three-component vector of rationals, modelling `vect_t` / `point_t`. -/
structure Vec3 where
  x : ℚ
  y : ℚ
  z : ℚ
deriving DecidableEq

/-- componentwise vector addition, `VADD2` from vmath.h. -/
def vadd2 (a b : Vec3) : Vec3 := ⟨a.x + b.x, a.y + b.y, a.z + b.z⟩

/-- the fixed library constant `SMALL_FASTF` (1.0e-77) from vmath.h. -/
def SMALL_FASTF : ℚ := 1 / 10 ^ 77

/-- `NEAR_ZERO(val, epsilon)` from vmath.h: `-epsilon < val < epsilon` (strict). -/
def NEAR_ZERO (val eps : ℚ) : Bool := decide (-eps < val) && decide (val < eps)

/-- `EQUAL(a, b)` from vmath.h: `NEAR_ZERO(a - b, SMALL_FASTF)`. -/
def EQUAL (a b : ℚ) : Bool := NEAR_ZERO (a - b) SMALL_FASTF

/-- the fields of `struct bn_tol` that main initializes (g-xxx.c:469-473). -/
structure BnTol where
  dist : ℚ
  dist_sq : ℚ
  perp : ℚ
  para : ℚ
deriving DecidableEq

/-- tolerance initialization performed by `main` (g-xxx.c:469-473):
dist = 0.0005, dist_sq = dist * dist, perp = 1e-6, para = 1 - perp. -/
def your_data_tol : BnTol :=
  ⟨1 / 2000, (1 / 2000) * (1 / 2000), 1 / 1000000, 1 - 1 / 1000000⟩

/- ### TGC classification (primitive_func, g-xxx.c:276-301) -/

/-- outcome of the TGC dispatch in `primitive_func`: the cylinder branch,
the cone branch, or the general Supercone (elliptical frustum) branch. -/
inductive TgcClass where
  | cylinder
  | cone
  | supercone
deriving DecidableEq

/-- the branch structure of the TGC case of `primitive_func`
(g-xxx.c:276-301), applied to the magnitudes of the axis vectors a, b, c, d:
`EQUAL(|a|,|c|)` selects the cylinder branch, else `EQUAL(|a|,|b|)` selects
the cone branch, else the Supercone branch.  `magd` is computed by the C
code but does not influence the branch taken. -/
def classify_tgc (maga magb magc magd : ℚ) : TgcClass :=
  if EQUAL maga magc then TgcClass.cylinder
  else if EQUAL maga magb then TgcClass.cone
  else TgcClass.supercone

/-- the same branch structure, but following the specification's words:
magnitude comparisons use the shared tolerance's distance epsilon `dist`
threaded from configuration (second definition for the refinement claim,
to be compared against `classify_tgc`, which is taken from the source). -/
def classify_tgc_spec (dist maga magb magc magd : ℚ) : TgcClass :=
  if |maga - magc| < dist then TgcClass.cylinder
  else if |maga - magb| < dist then TgcClass.cone
  else TgcClass.supercone

/- ### Boolean trees and describe_tree (g-xxx.c:64-135) -/

/-- a 4x4 transform matrix payload (`matp_t`); its contents are never read
by the describer. -/
abbrev Mat4 := List ℚ

/-- a (possibly null) `union tree` pointer.  `null` is the NULL pointer;
`dbLeaf` carries the member name `tl_name` and the transform pointer
`tl_mat`; the four binary operators carry `tb_left` and `tb_right`; the
unary operators use `tb_left` only; `opUnknown` stands for any `tr_op`
value outside the recognized set (reaching the `default:` arm). -/
inductive UTree where
  | null
  | dbLeaf (name : String) (mat : Option Mat4)
  | opUnion (l r : UTree)
  | opIntersect (l r : UTree)
  | opSubtract (l r : UTree)
  | opXor (l r : UTree)
  | opNot (c : UTree)
  | opGuard (c : UTree)
  | opXnop (c : UTree)
  | opNop
  | opUnknown (code : Int)
deriving DecidableEq

/-- `describe_tree(tree, str)` (g-xxx.c:64-135): appends the rendering of
`tree` to the accumulated buffer `str` (a `bu_vls`), or aborts the process
through `bu_exit` (modelled as `Except.error`) on an unrecognized op.
Binary operator symbols are `DB_OP_UNION` 'u', `DB_OP_INTERSECT` '+',
`DB_OP_SUBTRACT` '-' (db.h), and the local `op_xor` '^'.  The left subtree
of a binary node is rendered before the right one, matching the order of
the two recursive calls in the C code. -/
def describe_tree : UTree → String → Except String String
  | UTree.null, str => Except.ok (str ++ "-empty-")
  | UTree.dbLeaf name _, str => Except.ok (str ++ name)
  | UTree.opUnion l r, str =>
    match describe_tree l "" with
    | Except.error e => Except.error e
    | Except.ok ls =>
      match describe_tree r "" with
      | Except.error e => Except.error e
      | Except.ok rs => Except.ok (str ++ "(" ++ ls ++ " u " ++ rs ++ ")")
  | UTree.opIntersect l r, str =>
    match describe_tree l "" with
    | Except.error e => Except.error e
    | Except.ok ls =>
      match describe_tree r "" with
      | Except.error e => Except.error e
      | Except.ok rs => Except.ok (str ++ "(" ++ ls ++ " + " ++ rs ++ ")")
  | UTree.opSubtract l r, str =>
    match describe_tree l "" with
    | Except.error e => Except.error e
    | Except.ok ls =>
      match describe_tree r "" with
      | Except.error e => Except.error e
      | Except.ok rs => Except.ok (str ++ "(" ++ ls ++ " - " ++ rs ++ ")")
  | UTree.opXor l r, str =>
    match describe_tree l "" with
    | Except.error e => Except.error e
    | Except.ok ls =>
      match describe_tree r "" with
      | Except.error e => Except.error e
      | Except.ok rs => Except.ok (str ++ "(" ++ ls ++ " ^ " ++ rs ++ ")")
  | UTree.opNot c, str =>
    match describe_tree c (str ++ "(!") with
    | Except.error e => Except.error e
    | Except.ok s2 => Except.ok (s2 ++ ")")
  | UTree.opGuard c, str =>
    match describe_tree c (str ++ "(G") with
    | Except.error e => Except.error e
    | Except.ok s2 => Except.ok (s2 ++ ")")
  | UTree.opXnop c, str =>
    match describe_tree c (str ++ "(X") with
    | Except.error e => Except.error e
    | Except.ok s2 => Except.ok (s2 ++ ")")
  | UTree.opNop, str => Except.ok (str ++ "NOP")
  | UTree.opUnknown code, _ =>
    Except.error ("ERROR: describe_tree() got unrecognized op (" ++ toString code ++ ")\n")

/-- the fixed per-variant reference rendering stated by the specification:
absent tree is the sentinel token, a leaf is its name only, binary nodes
are fully parenthesized infix with a one-character operator, the unary
variants use the markers '!', 'G', 'X', and NoOp is a fixed literal.
(Second definition for the refinement claim; `opUnknown` is outside the
reference's domain and is mapped to the empty string.) -/
def describeRef : UTree → String
  | UTree.null => "-empty-"
  | UTree.dbLeaf name _ => name
  | UTree.opUnion l r => "(" ++ describeRef l ++ " u " ++ describeRef r ++ ")"
  | UTree.opIntersect l r => "(" ++ describeRef l ++ " + " ++ describeRef r ++ ")"
  | UTree.opSubtract l r => "(" ++ describeRef l ++ " - " ++ describeRef r ++ ")"
  | UTree.opXor l r => "(" ++ describeRef l ++ " ^ " ++ describeRef r ++ ")"
  | UTree.opNot c => "(!" ++ describeRef c ++ ")"
  | UTree.opGuard c => "(G" ++ describeRef c ++ ")"
  | UTree.opXnop c => "(X" ++ describeRef c ++ ")"
  | UTree.opNop => "NOP"
  | UTree.opUnknown _ => ""

/-- true when every node reachable by `describe_tree` carries a recognized
op tag (the tree lies in the BooleanNode variant set). -/
def wfTree : UTree → Bool
  | UTree.null => true
  | UTree.dbLeaf _ _ => true
  | UTree.opUnion l r => wfTree l && wfTree r
  | UTree.opIntersect l r => wfTree l && wfTree r
  | UTree.opSubtract l r => wfTree l && wfTree r
  | UTree.opXor l r => wfTree l && wfTree r
  | UTree.opNot c => wfTree c
  | UTree.opGuard c => wfTree c
  | UTree.opXnop c => wfTree c
  | UTree.opNop => true
  | UTree.opUnknown _ => false

/-- true when the string contains neither '(' nor ')'. -/
def parenFreeStr (s : String) : Bool :=
  s.data.all fun ch => !(ch == '(' || ch == ')')

/-- true when every leaf name in the tree is parenthesis-free. -/
def namesParenFree : UTree → Bool
  | UTree.null => true
  | UTree.dbLeaf name _ => parenFreeStr name
  | UTree.opUnion l r => namesParenFree l && namesParenFree r
  | UTree.opIntersect l r => namesParenFree l && namesParenFree r
  | UTree.opSubtract l r => namesParenFree l && namesParenFree r
  | UTree.opXor l r => namesParenFree l && namesParenFree r
  | UTree.opNot c => namesParenFree c
  | UTree.opGuard c => namesParenFree c
  | UTree.opXnop c => namesParenFree c
  | UTree.opNop => true
  | UTree.opUnknown _ => true

/-- occurrences of the character `c` in a string. -/
def cnt (c : Char) (s : String) : Nat := s.data.count c

/- ### Primitive records (rt_db_internal views) -/

/-- `idb_major_type`: the primary CAD kind, the binary-uniform blob kind,
or any other major type code. -/
inductive MajorType where
  | brlcad
  | binaryUnif
  | otherMajor (code : Int)
deriving DecidableEq

/-- `idb_type` tags: one constructor per `case` label of the dispatch
switch in `primitive_func` (g-xxx.c:246-425), plus `unknownType` for any
tag outside the listed set (reaching the `default:` arm).  `recTgc` is
`ID_REC`. -/
inductive IdbType where
  | tor
  | tgc
  | recTgc
  | ell
  | sph
  | arb8
  | bot
  | ars
  | half
  | poly
  | bspline
  | nmg
  | arbn
  | dsp
  | hf
  | ebm
  | vol
  | pipe
  | particle
  | rpc
  | rhc
  | epa
  | ehy
  | eto
  | grip
  | sketch
  | extrude
  | unknownType (code : Int)
deriving DecidableEq

/-- `struct rt_tor_internal` fields used by the exporter. -/
structure TorParams where
  v : Vec3
  h : Vec3
  r_a : ℚ
  r_h : ℚ
deriving DecidableEq

/-- `struct rt_tgc_internal` fields used by the exporter. -/
structure TgcParams where
  v : Vec3
  h : Vec3
  a : Vec3
  b : Vec3
  c : Vec3
  d : Vec3
deriving DecidableEq

/-- `struct rt_ell_internal` fields used by the exporter. -/
structure EllParams where
  v : Vec3
  a : Vec3
  b : Vec3
  c : Vec3
deriving DecidableEq

/-- `struct rt_arb_internal`: the eight vertices `pt[0]..pt[7]`. -/
structure ArbParams where
  pt0 : Vec3
  pt1 : Vec3
  pt2 : Vec3
  pt3 : Vec3
  pt4 : Vec3
  pt5 : Vec3
  pt6 : Vec3
  pt7 : Vec3
deriving DecidableEq

/-- `pt[i]` access on an ARB record. -/
def ArbParams.pt (a : ArbParams) : Fin 8 → Vec3
  | 0 => a.pt0
  | 1 => a.pt1
  | 2 => a.pt2
  | 3 => a.pt3
  | 4 => a.pt4
  | 5 => a.pt5
  | 6 => a.pt6
  | 7 => a.pt7

/-- `struct rt_part_internal` fields used by the fallback Round_Cone2
emission. -/
structure PartParams where
  part_V : Vec3
  part_H : Vec3
  part_vrad : ℚ
  part_hrad : ℚ
deriving DecidableEq

/-- one object reaching the leaf callback: the directory name
(`dp->d_namep`), the full path string, the major type, the `idb_type` tag,
and the typed views of the `idb_ptr` payload that the dispatcher may cast
it to.  `binNonNull` records whether the payload pointer, viewed as
`rt_binunif_internal *`, is non-null (the `if (bin)` guard). -/
structure PrimRecord where
  name : String
  path : String
  majorType : MajorType
  idbType : IdbType
  tor : TorParams
  tgc : TgcParams
  ell : EllParams
  arb : ArbParams
  part : PartParams
  binNonNull : Bool
deriving DecidableEq

/- ### ARB8 triangulation table (g-xxx.c:344-365) -/

/-- the `coordinates` array: `coordinates[i]` is the POV label declared for
`arb->pt[i]` (g-xxx.c:352). -/
def coordinates : List Char := ['b', 'c', 'h', 'g', 'a', 'd', 'e', 'f']

/-- index of the vertex declared under a given label: the inverse of the
`coordinates` table (so label 'b' is `pt[0]`, ..., label 'f' is `pt[7]`). -/
def labelIdx : Char → Fin 8
  | 'b' => 0
  | 'c' => 1
  | 'h' => 2
  | 'g' => 3
  | 'a' => 4
  | 'd' => 5
  | 'e' => 6
  | 'f' => 7
  | _ => 0

/-- the twelve `triangle{x,y,z}` lines emitted for an ARB8, by label, in
emission order (g-xxx.c:359-362). -/
def arbTriLabels : List (Char × Char × Char) :=
  [('a', 'b', 'c'), ('a', 'c', 'd'), ('a', 'd', 'f'),
   ('e', 'd', 'f'), ('c', 'd', 'e'), ('c', 'e', 'h'),
   ('a', 'b', 'g'), ('a', 'f', 'g'), ('b', 'c', 'g'),
   ('g', 'h', 'c'), ('e', 'f', 'g'), ('e', 'g', 'h')]

/-- the same twelve triangles as vertex-index triples into `pt[]`: the
fixed face/vertex index table the emission is driven by. -/
def arbIdxTable : List (Fin 8 × Fin 8 × Fin 8) :=
  [(4, 0, 1), (4, 1, 5), (4, 5, 7),
   (6, 5, 7), (1, 5, 6), (1, 6, 2),
   (4, 0, 3), (4, 7, 3), (0, 1, 3),
   (3, 2, 1), (6, 7, 3), (6, 3, 2)]

/-- the six logical faces of the ARB8, from the comment at g-xxx.c:347:
faces are 0123, 7654, 0347, 1562, 0451, 3267. -/
def arbFaces : List (List (Fin 8)) :=
  [[0, 1, 2, 3], [7, 6, 5, 4], [0, 3, 4, 7], [1, 5, 6, 2], [0, 4, 5, 1], [3, 2, 6, 7]]

/-- true when all three vertices of the index triple lie on the face. -/
def triInFace (t : Fin 8 × Fin 8 × Fin 8) (face : List (Fin 8)) : Bool :=
  face.contains t.1 && face.contains t.2.1 && face.contains t.2.2

/-- the triangles emitted for an ARB8 record, in emission order: each
label triple resolved through the point declarations. -/
def arbTriangles (a : ArbParams) : List (Vec3 × Vec3 × Vec3) :=
  arbTriLabels.map fun t => (a.pt (labelIdx t.1), a.pt (labelIdx t.2.1), a.pt (labelIdx t.2.2))

/- ### The export dispatcher (primitive_func, g-xxx.c:227-447) -/

/-- one block written to the primary output stream (stdout) by
`primitive_func` or `torusmacro`; each constructor carries the numeric
fields the corresponding printf block interpolates, in printing order. -/
inductive Emission where
  | torusMacroDecl
  | torusObject (v h : Vec3) (ra rh : ℚ)
  | cylinderObj (v vAdd : Vec3) (maga : ℚ)
  | coneObj (v : Vec3) (maga : ℚ) (h : Vec3) (magc : ℚ)
  | superconeObj (v : Vec3) (maga magb : ℚ) (vAdd : Vec3) (magc magd : ℚ)
  | recRaw (name : String) (t : TgcParams)
  | spheroidObj (v : Vec3) (magb maga magc : ℚ)
  | sphereObj (v a : Vec3)
  | arbBox (a : ArbParams) (tris : List (Vec3 × Vec3 × Vec3))
  | roundCone2 (v : Vec3) (vrad : ℚ) (h : Vec3) (hrad : ℚ)
  | binaryNotice (name : String)
deriving DecidableEq

/-- one line written to the diagnostic stream (`bu_log`, stderr). -/
inductive LogMsg where
  | leafVisit (path : String)
  | regionEndMsg (path : String)
  | unsupportedPrimitive (name : String) (ty : IdbType)
  | unrecognizedMajor (name : String) (mt : MajorType)
deriving DecidableEq

/-- true exactly on the one-shot torus macro declaration block. -/
def isTorusMacro : Emission → Bool
  | Emission.torusMacroDecl => true
  | _ => false

/-- true exactly on a torus object emission. -/
def isTorusObj : Emission → Bool
  | Emission.torusObject _ _ _ _ => true
  | _ => false

/-- the tags that fall through to the `default:` arm of the dispatch
switch (ID_RPC .. ID_EXTRUDE carry no statements of their own, and any
unknown tag). -/
def fallsToDefault : IdbType → Bool
  | IdbType.rpc => true
  | IdbType.rhc => true
  | IdbType.epa => true
  | IdbType.ehy => true
  | IdbType.eto => true
  | IdbType.grip => true
  | IdbType.sketch => true
  | IdbType.extrude => true
  | IdbType.unknownType _ => true
  | _ => false

/-- the result of one leaf callback: the new value of the global torus
one-shot `flag` (g-xxx.c:217), the blocks written to stdout, and the lines
written to the log stream.  The C function additionally returns
`(union tree *) NULL` unconditionally (the leaf is always consumed). -/
structure PrimOut where
  flagOut : Int
  emits : List Emission
  logs : List LogMsg
deriving DecidableEq

/-- `primitive_func` (g-xxx.c:227-447): logs the visited path, then
dispatches on major type and `idb_type`.  `mag` is the external
`MAGNITUDE` of vmath.h. -/
def primitive_func (mag : Vec3 → ℚ) (flag : Int) (r : PrimRecord) : PrimOut :=
  match r.majorType with
  | MajorType.brlcad =>
    match r.idbType with
    | IdbType.tor =>
      ⟨if flag = 0 then 1 else flag,
       (if flag = 0 then [Emission.torusMacroDecl] else [])
         ++ [Emission.torusObject r.tor.v r.tor.h r.tor.r_a r.tor.r_h],
       [LogMsg.leafVisit r.path]⟩
    | IdbType.tgc =>
      match classify_tgc (mag r.tgc.a) (mag r.tgc.b) (mag r.tgc.c) (mag r.tgc.d) with
      | TgcClass.cylinder =>
        ⟨flag, [Emission.cylinderObj r.tgc.v (vadd2 r.tgc.v r.tgc.h) (mag r.tgc.a)],
         [LogMsg.leafVisit r.path]⟩
      | TgcClass.cone =>
        ⟨flag, [Emission.coneObj r.tgc.v (mag r.tgc.a) r.tgc.h (mag r.tgc.c)],
         [LogMsg.leafVisit r.path]⟩
      | TgcClass.supercone =>
        ⟨flag, [Emission.superconeObj r.tgc.v (mag r.tgc.a) (mag r.tgc.b)
                 (vadd2 r.tgc.v r.tgc.h) (mag r.tgc.c) (mag r.tgc.d)],
         [LogMsg.leafVisit r.path]⟩
    | IdbType.recTgc => ⟨flag, [Emission.recRaw r.name r.tgc], [LogMsg.leafVisit r.path]⟩
    | IdbType.ell =>
      ⟨flag, [Emission.spheroidObj r.ell.v (mag r.ell.b) (mag r.ell.a) (mag r.ell.c)],
       [LogMsg.leafVisit r.path]⟩
    | IdbType.sph => ⟨flag, [Emission.sphereObj r.ell.v r.ell.a], [LogMsg.leafVisit r.path]⟩
    | IdbType.arb8 =>
      ⟨flag, [Emission.arbBox r.arb (arbTriangles r.arb)], [LogMsg.leafVisit r.path]⟩
    | IdbType.bot =>
      ⟨flag, [Emission.roundCone2 r.part.part_V r.part.part_vrad r.part.part_H r.part.part_hrad],
       [LogMsg.leafVisit r.path]⟩
    | IdbType.ars =>
      ⟨flag, [Emission.roundCone2 r.part.part_V r.part.part_vrad r.part.part_H r.part.part_hrad],
       [LogMsg.leafVisit r.path]⟩
    | IdbType.half =>
      ⟨flag, [Emission.roundCone2 r.part.part_V r.part.part_vrad r.part.part_H r.part.part_hrad],
       [LogMsg.leafVisit r.path]⟩
    | IdbType.poly =>
      ⟨flag, [Emission.roundCone2 r.part.part_V r.part.part_vrad r.part.part_H r.part.part_hrad],
       [LogMsg.leafVisit r.path]⟩
    | IdbType.bspline =>
      ⟨flag, [Emission.roundCone2 r.part.part_V r.part.part_vrad r.part.part_H r.part.part_hrad],
       [LogMsg.leafVisit r.path]⟩
    | IdbType.nmg =>
      ⟨flag, [Emission.roundCone2 r.part.part_V r.part.part_vrad r.part.part_H r.part.part_hrad],
       [LogMsg.leafVisit r.path]⟩
    | IdbType.arbn =>
      ⟨flag, [Emission.roundCone2 r.part.part_V r.part.part_vrad r.part.part_H r.part.part_hrad],
       [LogMsg.leafVisit r.path]⟩
    | IdbType.dsp =>
      ⟨flag, [Emission.roundCone2 r.part.part_V r.part.part_vrad r.part.part_H r.part.part_hrad],
       [LogMsg.leafVisit r.path]⟩
    | IdbType.hf =>
      ⟨flag, [Emission.roundCone2 r.part.part_V r.part.part_vrad r.part.part_H r.part.part_hrad],
       [LogMsg.leafVisit r.path]⟩
    | IdbType.ebm =>
      ⟨flag, [Emission.roundCone2 r.part.part_V r.part.part_vrad r.part.part_H r.part.part_hrad],
       [LogMsg.leafVisit r.path]⟩
    | IdbType.vol =>
      ⟨flag, [Emission.roundCone2 r.part.part_V r.part.part_vrad r.part.part_H r.part.part_hrad],
       [LogMsg.leafVisit r.path]⟩
    | IdbType.pipe =>
      ⟨flag, [Emission.roundCone2 r.part.part_V r.part.part_vrad r.part.part_H r.part.part_hrad],
       [LogMsg.leafVisit r.path]⟩
    | IdbType.particle =>
      ⟨flag, [Emission.roundCone2 r.part.part_V r.part.part_vrad r.part.part_H r.part.part_hrad],
       [LogMsg.leafVisit r.path]⟩
    | _ =>
      ⟨flag, [], [LogMsg.leafVisit r.path, LogMsg.unsupportedPrimitive r.name r.idbType]⟩
  | MajorType.binaryUnif =>
    ⟨flag, if r.binNonNull then [Emission.binaryNotice r.name] else [],
     [LogMsg.leafVisit r.path]⟩
  | MajorType.otherMajor _ =>
    ⟨flag, [], [LogMsg.leafVisit r.path, LogMsg.unrecognizedMajor r.name r.majorType]⟩

/-- sequential leaf callbacks over a traversal, threading the global
`flag` and concatenating both output streams in callback order. -/
def runPrims (mag : Vec3 → ℚ) (flag : Int) : List PrimRecord → PrimOut
  | [] => ⟨flag, [], []⟩
  | r :: rs =>
    let o1 := primitive_func mag flag r
    let o2 := runPrims mag o1.flagOut rs
    ⟨o2.flagOut, o1.emits ++ o2.emits, o1.logs ++ o2.logs⟩

/-- true when the log message names the given object together with its
type tag (the two unsupported-object diagnostics do; the per-leaf visit
trace does not). -/
def identifiesNameAndTag : LogMsg → String → Bool
  | LogMsg.unsupportedPrimitive n _, nm => n == nm
  | LogMsg.unrecognizedMajor n _, nm => n == nm
  | _, _ => false

/- ### region_end (g-xxx.c:199-214) and the driver loop (g-xxx.c:554-559) -/

/-- `region_end`: logs the path and returns `curtree` itself — never the
TREE_NULL "stolen" sentinel, and without touching the subtree. -/
def region_end (path : String) (curtree : UTree) : List LogMsg × UTree :=
  ([LogMsg.regionEndMsg path], curtree)

/-- the root lists handed to `db_walk_tree` by the loop in `main`
(g-xxx.c:554-559): iteration `i` passes `argc - i` names starting at
`argv[i]`, i.e. the loop iteration at 0-based position `p` passes the
suffix `roots.drop p`. -/
def walkCalls (roots : List String) : List (List String) :=
  (List.range roots.length).map fun p => roots.drop p

/-- total number of depth-first traversals performed for objects named
`name` over the whole run: `db_walk_tree` (the external walker) performs
one traversal per root name it is handed, per call. -/
def traversalsOf (roots : List String) (name : String) : Nat :=
  ((walkCalls roots).map fun l => l.count name).sum

/- ### Concrete inputs used by witnesses and counterexamples -/

/-- the zero vector. -/
def v0 : Vec3 := ⟨0, 0, 0⟩

/-- a concrete magnitude function for witnesses. -/
def mag0 : Vec3 → ℚ := fun _ => 0

/-- dummy torus parameters. -/
def tp0 : TorParams := ⟨v0, v0, 0, 0⟩

/-- dummy TGC parameters. -/
def gp0 : TgcParams := ⟨v0, v0, v0, v0, v0, v0⟩

/-- dummy ellipsoid parameters. -/
def ep0 : EllParams := ⟨v0, v0, v0, v0⟩

/-- dummy ARB parameters. -/
def ap0 : ArbParams := ⟨v0, v0, v0, v0, v0, v0, v0, v0⟩

/-- dummy particle parameters. -/
def pp0 : PartParams := ⟨v0, v0, 0, 0⟩

/-- a concrete torus record. -/
def torRecW : PrimRecord :=
  ⟨"tor1", "/top/tor1", MajorType.brlcad, IdbType.tor, ⟨v0, ⟨0, 0, 1⟩, 2, 1⟩,
   gp0, ep0, ap0, pp0, false⟩

/-- a binary-uniform object whose payload pointer is null. -/
def binRecNull : PrimRecord :=
  ⟨"bin0", "/top/bin0", MajorType.binaryUnif, IdbType.unknownType 31, tp0,
   gp0, ep0, ap0, pp0, false⟩

/-- a binary-uniform object whose payload pointer is non-null. -/
def binRecSome : PrimRecord :=
  ⟨"bin0", "/top/bin0", MajorType.binaryUnif, IdbType.unknownType 31, tp0,
   gp0, ep0, ap0, pp0, true⟩

/- ## Theorems -/

/- ### String helpers -/

lemma string_mk_append (a b : List Char) :
    String.mk a ++ String.mk b = String.mk (a ++ b) := rfl

lemma string_data_append (a b : String) : (a ++ b).data = a.data ++ b.data := by
  cases a; cases b; rfl

lemma string_empty_append (s : String) : "" ++ s = s := by
  cases s; rfl

lemma string_append_assoc (a b c : String) : a ++ b ++ c = a ++ (b ++ c) := by
  cases a; cases b; cases c
  simp only [string_mk_append, List.append_assoc]

lemma cnt_append (c : Char) (a b : String) : cnt c (a ++ b) = cnt c a + cnt c b := by
  simp [cnt, string_data_append, List.count_append]

/- ### describe_tree lemmas -/

lemma describe_tree_append (t : UTree) :
    wfTree t = true → ∀ s : String, describe_tree t s = Except.ok (s ++ describeRef t) := by
  induction t with
  | null => intro _ s; rfl
  | dbLeaf name mat => intro _ s; rfl
  | opUnion l r ihl ihr =>
    intro h s
    simp only [wfTree, Bool.and_eq_true] at h
    simp only [describe_tree, ihl h.1 "", ihr h.2 "", describeRef,
      string_empty_append, string_append_assoc]
  | opIntersect l r ihl ihr =>
    intro h s
    simp only [wfTree, Bool.and_eq_true] at h
    simp only [describe_tree, ihl h.1 "", ihr h.2 "", describeRef,
      string_empty_append, string_append_assoc]
  | opSubtract l r ihl ihr =>
    intro h s
    simp only [wfTree, Bool.and_eq_true] at h
    simp only [describe_tree, ihl h.1 "", ihr h.2 "", describeRef,
      string_empty_append, string_append_assoc]
  | opXor l r ihl ihr =>
    intro h s
    simp only [wfTree, Bool.and_eq_true] at h
    simp only [describe_tree, ihl h.1 "", ihr h.2 "", describeRef,
      string_empty_append, string_append_assoc]
  | opNot c ihc =>
    intro h s
    simp only [wfTree] at h
    simp only [describe_tree, ihc h, describeRef, string_append_assoc]
  | opGuard c ihc =>
    intro h s
    simp only [wfTree] at h
    simp only [describe_tree, ihc h, describeRef, string_append_assoc]
  | opXnop c ihc =>
    intro h s
    simp only [wfTree] at h
    simp only [describe_tree, ihc h, describeRef, string_append_assoc]
  | opNop => intro _ s; rfl
  | opUnknown code => intro h; simp [wfTree] at h

lemma parenFree_count (s : String) (h : parenFreeStr s = true) :
    cnt '(' s = 0 ∧ cnt ')' s = 0 := by
  simp only [parenFreeStr, List.all_eq_true, Bool.not_eq_true', Bool.or_eq_false_iff,
    beq_eq_false_iff_ne] at h
  constructor
  · exact List.count_eq_zero.mpr fun hm => (h _ hm).1 rfl
  · exact List.count_eq_zero.mpr fun hm => (h _ hm).2 rfl

lemma describeRef_balanced (t : UTree) (hn : namesParenFree t = true) :
    cnt '(' (describeRef t) = cnt ')' (describeRef t) := by
  induction t with
  | null => decide
  | dbLeaf name mat =>
    simp only [namesParenFree] at hn
    obtain ⟨h1, h2⟩ := parenFree_count name hn
    simp [describeRef, h1, h2]
  | opUnion l r ihl ihr =>
    simp only [namesParenFree, Bool.and_eq_true] at hn
    have el := ihl hn.1
    have er := ihr hn.2
    simp only [describeRef, cnt_append]
    have c1 : cnt '(' "(" = 1 := by decide
    have c2 : cnt ')' "(" = 0 := by decide
    have c3 : cnt '(' ")" = 0 := by decide
    have c4 : cnt ')' ")" = 1 := by decide
    have c5 : cnt '(' " u " = 0 := by decide
    have c6 : cnt ')' " u " = 0 := by decide
    omega
  | opIntersect l r ihl ihr =>
    simp only [namesParenFree, Bool.and_eq_true] at hn
    have el := ihl hn.1
    have er := ihr hn.2
    simp only [describeRef, cnt_append]
    have c1 : cnt '(' "(" = 1 := by decide
    have c2 : cnt ')' "(" = 0 := by decide
    have c3 : cnt '(' ")" = 0 := by decide
    have c4 : cnt ')' ")" = 1 := by decide
    have c5 : cnt '(' " + " = 0 := by decide
    have c6 : cnt ')' " + " = 0 := by decide
    omega
  | opSubtract l r ihl ihr =>
    simp only [namesParenFree, Bool.and_eq_true] at hn
    have el := ihl hn.1
    have er := ihr hn.2
    simp only [describeRef, cnt_append]
    have c1 : cnt '(' "(" = 1 := by decide
    have c2 : cnt ')' "(" = 0 := by decide
    have c3 : cnt '(' ")" = 0 := by decide
    have c4 : cnt ')' ")" = 1 := by decide
    have c5 : cnt '(' " - " = 0 := by decide
    have c6 : cnt ')' " - " = 0 := by decide
    omega
  | opXor l r ihl ihr =>
    simp only [namesParenFree, Bool.and_eq_true] at hn
    have el := ihl hn.1
    have er := ihr hn.2
    simp only [describeRef, cnt_append]
    have c1 : cnt '(' "(" = 1 := by decide
    have c2 : cnt ')' "(" = 0 := by decide
    have c3 : cnt '(' ")" = 0 := by decide
    have c4 : cnt ')' ")" = 1 := by decide
    have c5 : cnt '(' " ^ " = 0 := by decide
    have c6 : cnt ')' " ^ " = 0 := by decide
    omega
  | opNot c ihc =>
    simp only [namesParenFree] at hn
    have ec := ihc hn
    simp only [describeRef, cnt_append]
    have c1 : cnt '(' "(!" = 1 := by decide
    have c2 : cnt ')' "(!" = 0 := by decide
    have c3 : cnt '(' ")" = 0 := by decide
    have c4 : cnt ')' ")" = 1 := by decide
    omega
  | opGuard c ihc =>
    simp only [namesParenFree] at hn
    have ec := ihc hn
    simp only [describeRef, cnt_append]
    have c1 : cnt '(' "(G" = 1 := by decide
    have c2 : cnt ')' "(G" = 0 := by decide
    have c3 : cnt '(' ")" = 0 := by decide
    have c4 : cnt ')' ")" = 1 := by decide
    omega
  | opXnop c ihc =>
    simp only [namesParenFree] at hn
    have ec := ihc hn
    simp only [describeRef, cnt_append]
    have c1 : cnt '(' "(X" = 1 := by decide
    have c2 : cnt ')' "(X" = 0 := by decide
    have c3 : cnt '(' ")" = 0 := by decide
    have c4 : cnt ')' ")" = 1 := by decide
    omega
  | opNop => decide
  | opUnknown code => simp [describeRef, cnt]

lemma describe_tree_err (t : UTree) :
    wfTree t = false → ∀ s : String, ∃ e, describe_tree t s = Except.error e := by
  induction t with
  | null => intro h; simp [wfTree] at h
  | dbLeaf name mat => intro h; simp [wfTree] at h
  | opUnion l r ihl ihr =>
    intro h s
    cases hl : wfTree l with
    | false =>
      obtain ⟨e, he⟩ := ihl hl ""
      exact ⟨e, by simp [describe_tree, he]⟩
    | true =>
      have hr : wfTree r = false := by
        simp only [wfTree, hl, Bool.true_and] at h; exact h
      obtain ⟨e, he⟩ := ihr hr ""
      exact ⟨e, by simp [describe_tree, describe_tree_append l hl "", he]⟩
  | opIntersect l r ihl ihr =>
    intro h s
    cases hl : wfTree l with
    | false =>
      obtain ⟨e, he⟩ := ihl hl ""
      exact ⟨e, by simp [describe_tree, he]⟩
    | true =>
      have hr : wfTree r = false := by
        simp only [wfTree, hl, Bool.true_and] at h; exact h
      obtain ⟨e, he⟩ := ihr hr ""
      exact ⟨e, by simp [describe_tree, describe_tree_append l hl "", he]⟩
  | opSubtract l r ihl ihr =>
    intro h s
    cases hl : wfTree l with
    | false =>
      obtain ⟨e, he⟩ := ihl hl ""
      exact ⟨e, by simp [describe_tree, he]⟩
    | true =>
      have hr : wfTree r = false := by
        simp only [wfTree, hl, Bool.true_and] at h; exact h
      obtain ⟨e, he⟩ := ihr hr ""
      exact ⟨e, by simp [describe_tree, describe_tree_append l hl "", he]⟩
  | opXor l r ihl ihr =>
    intro h s
    cases hl : wfTree l with
    | false =>
      obtain ⟨e, he⟩ := ihl hl ""
      exact ⟨e, by simp [describe_tree, he]⟩
    | true =>
      have hr : wfTree r = false := by
        simp only [wfTree, hl, Bool.true_and] at h; exact h
      obtain ⟨e, he⟩ := ihr hr ""
      exact ⟨e, by simp [describe_tree, describe_tree_append l hl "", he]⟩
  | opNot c ihc =>
    intro h s
    obtain ⟨e, he⟩ := ihc h (s ++ "(!")
    exact ⟨e, by simp [describe_tree, he]⟩
  | opGuard c ihc =>
    intro h s
    obtain ⟨e, he⟩ := ihc h (s ++ "(G")
    exact ⟨e, by simp [describe_tree, he]⟩
  | opXnop c ihc =>
    intro h s
    obtain ⟨e, he⟩ := ihc h (s ++ "(X")
    exact ⟨e, by simp [describe_tree, he]⟩
  | opNop => intro h; simp [wfTree] at h
  | opUnknown code =>
    intro _ s
    exact ⟨"ERROR: describe_tree() got unrecognized op (" ++ toString code ++ ")\n", rfl⟩

/- ### Claim C4: describe follows the per-variant reference rendering -/

/-- C4: for every tree over the recognized BooleanNode variant set,
`describe_tree` (a pure function of the node) produces exactly the fixed
per-variant reference rendering `describeRef`: an absent tree is the
sentinel "-empty-", a leaf is its primitive name only (no parentheses, no
transform annotation), each binary node is "(" left " op " right ")" with
one fixed single-character operator per variant, Not/Guard/XNop are "(" ++
marker ++ child ++ ")" with markers '!', 'G', 'X', and NoOp is the fixed
literal "NOP". -/
theorem describe_matches_reference (t : UTree) (h : wfTree t = true) :
    describe_tree t "" = Except.ok (describeRef t) := by
  rw [describe_tree_append t h "", string_empty_append]

/-- witness for `describe_matches_reference` at a concrete tree. -/
theorem describe_matches_reference_witness :
    describe_tree
        (UTree.opUnion (UTree.dbLeaf "cube.s" none)
          (UTree.opSubtract (UTree.dbLeaf "a" none) UTree.null)) "" =
      Except.ok (describeRef
        (UTree.opUnion (UTree.dbLeaf "cube.s" none)
          (UTree.opSubtract (UTree.dbLeaf "a" none) UTree.null))) :=
  describe_matches_reference _ (by decide)

/- ### Claim C5: determinism and balanced parentheses -/

/-- C5 counterexample: the claim "for every BooleanNode tree the number of
'(' characters in the output equals the number of ')' characters" fails on
the code as stated, because a leaf name is rendered verbatim: the leaf
whose primitive name is the one-character string "(" renders as "(" with
one '(' and no ')'. -/
theorem describe_paren_counterexample :
    describe_tree (UTree.dbLeaf "(" none) "" = Except.ok "(" ∧
      cnt '(' "(" = 1 ∧ cnt ')' "(" = 0 := by
  exact ⟨rfl, by decide, by decide⟩

/-- C5 (amended): `describe_tree` is a pure function (so two runs on the
same tree give the same string), and for every recognized tree whose leaf
names contain no parenthesis characters the output is fully parenthesized:
the number of '(' equals the number of ')'. -/
theorem describe_balanced_parens (t : UTree) (h : wfTree t = true)
    (hn : namesParenFree t = true) :
    describe_tree t "" = Except.ok (describeRef t) ∧
      cnt '(' (describeRef t) = cnt ')' (describeRef t) := by
  constructor
  · rw [describe_tree_append t h "", string_empty_append]
  · exact describeRef_balanced t hn

/-- witness for `describe_balanced_parens` at a concrete tree. -/
theorem describe_balanced_parens_witness :
    describe_tree (UTree.opUnion (UTree.dbLeaf "a" none) (UTree.dbLeaf "b" none)) "" =
        Except.ok (describeRef (UTree.opUnion (UTree.dbLeaf "a" none) (UTree.dbLeaf "b" none))) ∧
      cnt '(' (describeRef (UTree.opUnion (UTree.dbLeaf "a" none) (UTree.dbLeaf "b" none))) =
        cnt ')' (describeRef (UTree.opUnion (UTree.dbLeaf "a" none) (UTree.dbLeaf "b" none))) :=
  describe_balanced_parens _ (by decide) (by decide)

/- ### Claim C7: unrecognized variant tags are fatal -/

/-- C7: applying the describer to a node whose `tr_op` tag lies outside the
recognized variant set terminates the run with the `bu_exit` diagnostic
(modelled as `Except.error`), and more generally every tree containing a
reachable unrecognized tag makes `describe_tree` abort rather than render:
the function is exhaustive over the variant set, and any unrecognized tag
reaches the fatal-error path. -/
theorem describe_unknown_fatal :
    (∀ (code : Int) (s : String),
        describe_tree (UTree.opUnknown code) s =
          Except.error ("ERROR: describe_tree() got unrecognized op (" ++ toString code ++ ")\n")) ∧
      (∀ (t : UTree) (s : String), wfTree t = false →
        ∃ e, describe_tree t s = Except.error e) :=
  ⟨fun _ _ => rfl, fun t s h => describe_tree_err t h s⟩

/-- witness for `describe_unknown_fatal` at a concrete malformed tree. -/
theorem describe_unknown_fatal_witness :
    ∃ e, describe_tree (UTree.opUnion (UTree.opUnknown 42) UTree.null) "" = Except.error e :=
  describe_unknown_fatal.2 (UTree.opUnion (UTree.opUnknown 42) UTree.null) "" (by decide)

/- ### TGC classification lemmas -/

lemma classify_eq_cylinder_iff (maga magb magc magd : ℚ) :
    classify_tgc maga magb magc magd = TgcClass.cylinder ↔ EQUAL maga magc = true := by
  cases hac : EQUAL maga magc <;> cases hab : EQUAL maga magb <;>
    simp [classify_tgc, hac, hab]

lemma classify_eq_cone_iff (maga magb magc magd : ℚ) :
    classify_tgc maga magb magc magd = TgcClass.cone ↔
      EQUAL maga magc = false ∧ EQUAL maga magb = true := by
  cases hac : EQUAL maga magc <;> cases hab : EQUAL maga magb <;>
    simp [classify_tgc, hac, hab]

lemma classify_eq_supercone_iff (maga magb magc magd : ℚ) :
    classify_tgc maga magb magc magd = TgcClass.supercone ↔
      EQUAL maga magc = false ∧ EQUAL maga magb = false := by
  cases hac : EQUAL maga magc <;> cases hab : EQUAL maga magb <;>
    simp [classify_tgc, hac, hab]

lemma EQUAL_iff_abs (x y : ℚ) : EQUAL x y = true ↔ |x - y| < SMALL_FASTF := by
  simp [EQUAL, NEAR_ZERO, Bool.and_eq_true, abs_lt]

/- ### Claim C2: cylinder/cone/frustum classification -/

/-- C2: the TGC dispatch classifies by comparing axis-vector magnitudes
with the near-equality test `EQUAL`: the cylinder branch is taken exactly
when |a| and |c| are near-equal (regardless of the b and d magnitudes),
else the cone branch exactly when |a| and |b| are near-equal, else the
general Supercone branch — the three outcomes are exhaustive and mutually
exclusive under this tie-break order (cylinder check first). -/
theorem tgc_classification (maga magb magc magd : ℚ) :
    (classify_tgc maga magb magc magd = TgcClass.cylinder ↔ EQUAL maga magc = true) ∧
      (classify_tgc maga magb magc magd = TgcClass.cone ↔
        EQUAL maga magc = false ∧ EQUAL maga magb = true) ∧
      (classify_tgc maga magb magc magd = TgcClass.supercone ↔
        EQUAL maga magc = false ∧ EQUAL maga magb = false) ∧
      (∀ magb2 magd2 : ℚ,
        (classify_tgc maga magb magc magd = TgcClass.cylinder ↔
          classify_tgc maga magb2 magc magd2 = TgcClass.cylinder)) := by
  refine ⟨classify_eq_cylinder_iff maga magb magc magd,
    classify_eq_cone_iff maga magb magc magd,
    classify_eq_supercone_iff maga magb magc magd, ?_⟩
  intro magb2 magd2
  rw [classify_eq_cylinder_iff, classify_eq_cylinder_iff]

/- ### Claim C3: which epsilon the comparisons use -/

/-- C3 counterexample: the magnitude comparison does not use the
configured tolerance distance (`your_data.tol.dist`, 0.0005 after the
initialization in `main`): with |a| = 1, |b| = 1, |c| = 1.0001, |d| = 0,
the difference |a|-|c| is within the configured 0.0005 tolerance, so the
spec's comparator classifies the record as a cylinder, but the code's
`EQUAL` macro (fixed epsilon SMALL_FASTF = 1e-77) rejects it and the code
takes the cone branch instead. -/
theorem tgc_tolerance_counterexample :
    classify_tgc 1 1 (10001 / 10000) 0 = TgcClass.cone ∧
      classify_tgc_spec your_data_tol.dist 1 1 (10001 / 10000) 0 = TgcClass.cylinder ∧
      classify_tgc 1 1 (10001 / 10000) 0 ≠
        classify_tgc_spec your_data_tol.dist 1 1 (10001 / 10000) 0 := by
  have habs : |(1 : ℚ) - 10001 / 10000| = 1 / 10000 := by
    rw [show (1 : ℚ) - 10001 / 10000 = -(1 / 10000) by norm_num, abs_neg,
      abs_of_pos (by norm_num : (0 : ℚ) < 1 / 10000)]
  have hac : EQUAL 1 (10001 / 10000) = false := by
    cases h : EQUAL 1 (10001 / 10000) with
    | false => rfl
    | true =>
      have := (EQUAL_iff_abs 1 (10001 / 10000)).mp h
      rw [habs, SMALL_FASTF] at this
      norm_num at this
  have hab : EQUAL (1 : ℚ) 1 = true := by
    rw [EQUAL_iff_abs, sub_self, abs_zero, SMALL_FASTF]
    positivity
  have hcode : classify_tgc 1 1 (10001 / 10000) 0 = TgcClass.cone :=
    (classify_eq_cone_iff 1 1 (10001 / 10000) 0).mpr ⟨hac, hab⟩
  have hspec : classify_tgc_spec your_data_tol.dist 1 1 (10001 / 10000) 0 =
      TgcClass.cylinder := by
    have hd : your_data_tol.dist = 1 / 2000 := rfl
    rw [classify_tgc_spec, hd, habs, if_pos (by norm_num : (1 : ℚ) / 10000 < 1 / 2000)]
  refine ⟨hcode, hspec, ?_⟩
  rw [hcode, hspec]
  simp

/-- C3 (amended): every magnitude-equality comparison made by the TGC
classification goes through the `EQUAL` macro, an epsilon near-equality
with the fixed library constant SMALL_FASTF — not exact floating-point
equality (there are unequal magnitudes that `EQUAL` accepts) and not the
configured `tolerance.dist` (see `tgc_tolerance_counterexample`). -/
theorem tgc_equal_fixed_epsilon (maga magb magc magd : ℚ) :
    (EQUAL maga magc = true ↔ |maga - magc| < SMALL_FASTF) ∧
      (classify_tgc maga magb magc magd = TgcClass.cylinder ↔
        |maga - magc| < SMALL_FASTF) ∧
      (∃ x y : ℚ, x ≠ y ∧ EQUAL x y = true) := by
  refine ⟨EQUAL_iff_abs maga magc, ?_, ⟨0, 1 / 10 ^ 78, by norm_num, ?_⟩⟩
  · rw [classify_eq_cylinder_iff, EQUAL_iff_abs]
  · rw [EQUAL_iff_abs, show (0 : ℚ) - 1 / 10 ^ 78 = -(1 / 10 ^ 78) by ring, abs_neg,
      abs_of_pos (by positivity : (0 : ℚ) < 1 / 10 ^ 78), SMALL_FASTF]
    norm_num

/- ### Claim C1: the driver loop re-walks later roots -/

/-- C1: the claim "the driver performs exactly one depth-first traversal
per root name" fails on the code: with the two roots A B, the loop in
`main` hands db_walk_tree the suffix starting at each position (argc - i
names from argv[i]), so B is walked in both iterations — two traversals
for an object listed once. -/
theorem driver_walks_roots_repeatedly :
    traversalsOf ["A", "B"] "B" = 2 ∧ (["A", "B"] : List String).count "B" = 1 := by
  refine ⟨by decide, by decide⟩

/- ### Claim C10: region_end neither steals nor modifies the subtree -/

/-- C10: `region_end` only logs the path: it returns exactly its input
subtree (so the contents are untouched and the TREE_NULL "stolen" sentinel
is never produced for a non-null subtree) and the driver frees the subtree
normally. -/
theorem region_end_returns_input (path : String) (curtree : UTree) :
    (region_end path curtree).2 = curtree ∧
      (region_end path curtree).1 = [LogMsg.regionEndMsg path] ∧
      (curtree ≠ UTree.null → (region_end path curtree).2 ≠ UTree.null) :=
  ⟨rfl, rfl, fun h => h⟩

/-- witness for `region_end_returns_input` at a concrete non-null tree. -/
theorem region_end_returns_input_witness :
    (region_end "/top/r1" UTree.opNop).2 = UTree.opNop ∧
      (region_end "/top/r1" UTree.opNop).2 ≠ UTree.null :=
  ⟨(region_end_returns_input "/top/r1" UTree.opNop).1,
    (region_end_returns_input "/top/r1" UTree.opNop).2.2 (by decide)⟩

/- ### runPrims lemmas -/

lemma runPrims_append (mag : Vec3 → ℚ) (xs : List PrimRecord) :
    ∀ (f : Int) (ys : List PrimRecord),
      runPrims mag f (xs ++ ys) =
        ⟨(runPrims mag (runPrims mag f xs).flagOut ys).flagOut,
         (runPrims mag f xs).emits ++ (runPrims mag (runPrims mag f xs).flagOut ys).emits,
         (runPrims mag f xs).logs ++ (runPrims mag (runPrims mag f xs).flagOut ys).logs⟩ := by
  induction xs with
  | nil => intro f ys; simp [runPrims]
  | cons r rs ih => intro f ys; simp [runPrims, ih, List.append_assoc]

/- ### Claim C6: unsupported objects are logged, not fatal -/

/-- C6 counterexample: the claim "every primitive whose tag is outside the
recognized set, or whose major type is not the primary CAD kind, is
reported with a diagnostic identifying the object name and the
unrecognized tag, and no skipped object is dropped without being logged by
name and reason" fails for binary-uniform objects: when the payload
pointer is null the callback emits nothing and logs only the generic
per-leaf visit trace (no name-and-reason diagnostic at all), and even with
a non-null payload the notice printed to the primary output names the
object but carries no tag. -/
theorem binary_skip_counterexample :
    primitive_func mag0 0 binRecNull = ⟨0, [], [LogMsg.leafVisit "/top/bin0"]⟩ ∧
      identifiesNameAndTag (LogMsg.leafVisit "/top/bin0") "bin0" = false ∧
      primitive_func mag0 0 binRecSome =
        ⟨0, [Emission.binaryNotice "bin0"], [LogMsg.leafVisit "/top/bin0"]⟩ :=
  ⟨rfl, rfl, rfl⟩

/-- C6 (amended): primitives of the primary CAD kind whose tag reaches the
`default:` arm (ID_RPC..ID_EXTRUDE and any unrecognized tag) are logged
with the object name and the tag, and objects of an unrecognized major
type are logged with the object name and the major type; neither case
emits anything, aborts, or changes the one-shot flag.  A binary-uniform
object instead gets a printf notice naming it (only when its payload
pointer is non-null; nothing otherwise).  No case is fatal, and the
traversal continues past every record: processing a concatenation
processes both parts in order. -/
theorem unsupported_logged_nonfatal (mag : Vec3 → ℚ) (f : Int) (name path : String)
    (tp : TorParams) (gp : TgcParams) (ep : EllParams) (ap : ArbParams) (pp : PartParams)
    (bn : Bool) (code : Int) (ty : IdbType) (xs ys : List PrimRecord) :
    (∀ ty2 : IdbType, fallsToDefault ty2 = true →
        primitive_func mag f ⟨name, path, MajorType.brlcad, ty2, tp, gp, ep, ap, pp, bn⟩ =
          ⟨f, [], [LogMsg.leafVisit path, LogMsg.unsupportedPrimitive name ty2]⟩) ∧
      primitive_func mag f ⟨name, path, MajorType.otherMajor code, ty, tp, gp, ep, ap, pp, bn⟩ =
        ⟨f, [], [LogMsg.leafVisit path,
                 LogMsg.unrecognizedMajor name (MajorType.otherMajor code)]⟩ ∧
      primitive_func mag f ⟨name, path, MajorType.binaryUnif, ty, tp, gp, ep, ap, pp, true⟩ =
        ⟨f, [Emission.binaryNotice name], [LogMsg.leafVisit path]⟩ ∧
      primitive_func mag f ⟨name, path, MajorType.binaryUnif, ty, tp, gp, ep, ap, pp, false⟩ =
        ⟨f, [], [LogMsg.leafVisit path]⟩ ∧
      runPrims mag f (xs ++ ys) =
        ⟨(runPrims mag (runPrims mag f xs).flagOut ys).flagOut,
         (runPrims mag f xs).emits ++ (runPrims mag (runPrims mag f xs).flagOut ys).emits,
         (runPrims mag f xs).logs ++ (runPrims mag (runPrims mag f xs).flagOut ys).logs⟩ := by
  refine ⟨?_, rfl, rfl, rfl, runPrims_append mag xs f ys⟩
  intro ty2 h
  cases ty2 <;> first | rfl | simp [fallsToDefault] at h

/-- witness for `unsupported_logged_nonfatal` at a concrete sketch record. -/
theorem unsupported_logged_nonfatal_witness :
    primitive_func mag0 0
        ⟨"obj1", "/top/obj1", MajorType.brlcad, IdbType.sketch, tp0, gp0, ep0, ap0, pp0, false⟩ =
      ⟨0, [], [LogMsg.leafVisit "/top/obj1",
               LogMsg.unsupportedPrimitive "obj1" IdbType.sketch]⟩ :=
  (unsupported_logged_nonfatal mag0 0 "obj1" "/top/obj1" tp0 gp0 ep0 ap0 pp0 false 0
      IdbType.sketch [] []).1 IdbType.sketch (by decide)

/- ### Torus one-shot flag lemmas -/

lemma step_tor (mag : Vec3 → ℚ) (f : Int) (r : PrimRecord)
    (h1 : r.majorType = MajorType.brlcad) (h2 : r.idbType = IdbType.tor) :
    primitive_func mag f r =
      ⟨if f = 0 then 1 else f,
       (if f = 0 then [Emission.torusMacroDecl] else [])
         ++ [Emission.torusObject r.tor.v r.tor.h r.tor.r_a r.tor.r_h],
       [LogMsg.leafVisit r.path]⟩ := by
  obtain ⟨name, path, mt, it, tp, gp, ep, ap, pp, bn⟩ := r
  cases h1
  cases h2
  rfl

lemma step_nontor (mag : Vec3 → ℚ) (f : Int) (r : PrimRecord)
    (h : ¬(r.majorType = MajorType.brlcad ∧ r.idbType = IdbType.tor)) :
    (primitive_func mag f r).flagOut = f ∧
      ∀ e ∈ (primitive_func mag f r).emits, isTorusObj e = false ∧ isTorusMacro e = false := by
  obtain ⟨name, path, mt, it, tp, gp, ep, ap, pp, bn⟩ := r
  cases mt with
  | brlcad =>
    cases it
    case tor => exact absurd ⟨rfl, rfl⟩ h
    all_goals {
      refine ⟨?_, ?_⟩
      · simp only [primitive_func]
        try split
        all_goals rfl
      · intro e he
        simp only [primitive_func] at he
        try split at he
        all_goals simp_all [isTorusObj, isTorusMacro]
    }
  | binaryUnif =>
    refine ⟨rfl, ?_⟩
    intro e he
    simp only [primitive_func] at he
    split at he <;> simp_all [isTorusObj, isTorusMacro]
  | otherMajor code =>
    refine ⟨rfl, ?_⟩
    intro e he
    simp only [primitive_func] at he
    simp at he

lemma runPrims_one (mag : Vec3 → ℚ) : ∀ recs : List PrimRecord,
    (runPrims mag 1 recs).flagOut = 1 ∧
      Emission.torusMacroDecl ∉ (runPrims mag 1 recs).emits := by
  intro recs
  induction recs with
  | nil => simp [runPrims]
  | cons r rs ih =>
    by_cases h : r.majorType = MajorType.brlcad ∧ r.idbType = IdbType.tor
    · have ht := step_tor mag 1 r h.1 h.2
      have h10 : ((1 : Int) = 0) = False := by simp
      simp only [runPrims, ht, h10, if_false, List.nil_append]
      refine ⟨ih.1, ?_⟩
      intro hm
      rcases List.mem_append.mp hm with hm1 | hm2
      · simp at hm1
      · exact ih.2 hm2
    · have hs := step_nontor mag 1 r h
      simp only [runPrims, hs.1]
      refine ⟨ih.1, ?_⟩
      intro hm
      rcases List.mem_append.mp hm with hm1 | hm2
      · have := (hs.2 _ hm1).2
        simp [isTorusMacro] at this
      · exact ih.2 hm2

lemma runPrims_zero_once (mag : Vec3 → ℚ) : ∀ recs : List PrimRecord,
    ((runPrims mag 0 recs).emits.count Emission.torusMacroDecl ≤ 1) ∧
      ((runPrims mag 0 recs).emits.any isTorusObj = true →
        ∃ a b, (runPrims mag 0 recs).emits = a ++ Emission.torusMacroDecl :: b ∧
          (∀ e ∈ a, isTorusObj e = false ∧ isTorusMacro e = false) ∧
          Emission.torusMacroDecl ∉ b) := by
  intro recs
  induction recs with
  | nil => exact ⟨by simp [runPrims], by simp [runPrims]⟩
  | cons r rs ih =>
    by_cases h : r.majorType = MajorType.brlcad ∧ r.idbType = IdbType.tor
    · have ht := step_tor mag 0 r h.1 h.2
      have hrest := runPrims_one mag rs
      have h00 : ((0 : Int) = 0) = True := by simp
      simp only [runPrims, ht, h00, if_true, List.cons_append, List.singleton_append,
        List.nil_append]
      rw [hrest.1] at *
      constructor
      · have hz : (runPrims mag 1 rs).emits.count Emission.torusMacroDecl = 0 :=
          List.count_eq_zero.mpr hrest.2
        simp [List.count_cons, hz]
      · intro _
        refine ⟨[], Emission.torusObject r.tor.v r.tor.h r.tor.r_a r.tor.r_h ::
          (runPrims mag 1 rs).emits, by simp, by simp, ?_⟩
        intro hm
        rcases List.mem_cons.mp hm with hm1 | hm2
        · simp at hm1
        · exact hrest.2 hm2
    · have hs := step_nontor mag 0 r h
      simp only [runPrims, hs.1]
      have hE1 : Emission.torusMacroDecl ∉ (primitive_func mag 0 r).emits := by
        intro hm
        have := (hs.2 _ hm).2
        simp [isTorusMacro] at this
      constructor
      · have hz : (primitive_func mag 0 r).emits.count Emission.torusMacroDecl = 0 :=
          List.count_eq_zero.mpr hE1
        rw [List.count_append, hz]
        simpa using ih.1
      · intro hany
        obtain ⟨e, he, hto⟩ := List.any_eq_true.mp hany
        rcases List.mem_append.mp he with he1 | he2
        · have := (hs.2 _ he1).1
          rw [this] at hto
          exact absurd hto (by simp)
        · obtain ⟨a, b, hab, hA, hB⟩ := ih.2 (List.any_eq_true.mpr ⟨e, he2, hto⟩)
          refine ⟨(primitive_func mag 0 r).emits ++ a, b, ?_, ?_, hB⟩
          · rw [hab, List.append_assoc]
          · intro x hx
            rcases List.mem_append.mp hx with hx1 | hx2
            · exact hs.2 _ hx1
            · exact hA _ hx2

lemma findIdx_append_all_false {α : Type} (p : α → Bool) (a : List α)
    (h : ∀ x ∈ a, p x = false) (b : List α) :
    (a ++ b).findIdx p = a.length + b.findIdx p := by
  induction a with
  | nil => simp
  | cons x xs ih =>
    have hx : p x = false := h x (by simp)
    have ihx := ih fun y hy => h y (by simp [hy])
    simp only [List.cons_append, List.findIdx_cons, hx, cond_false, ihx, List.length_cons]
    omega

/- ### Claim C8: the torus macro is emitted once, before the first torus -/

/-- C8: over any sequence of leaf callbacks starting from the initial flag
value 0 (`int flag = 0`, g-xxx.c:217), the auxiliary torus macro
declaration appears at most once in the output stream, and whenever some
torus object is emitted the macro declaration appears strictly before the
first torus object emission; moreover the one-shot flag is never reset
mid-traversal: once it is 1 it stays 1 and no further macro is emitted. -/
theorem torus_macro_once (mag : Vec3 → ℚ) (recs : List PrimRecord) :
    ((runPrims mag 0 recs).emits.count Emission.torusMacroDecl ≤ 1) ∧
      ((runPrims mag 0 recs).emits.any isTorusObj = true →
        (runPrims mag 0 recs).emits.findIdx isTorusMacro <
          (runPrims mag 0 recs).emits.findIdx isTorusObj) ∧
      (runPrims mag 1 recs).flagOut = 1 ∧
      Emission.torusMacroDecl ∉ (runPrims mag 1 recs).emits := by
  refine ⟨(runPrims_zero_once mag recs).1, ?_, (runPrims_one mag recs).1,
    (runPrims_one mag recs).2⟩
  intro hany
  obtain ⟨a, b, hab, hA, hB⟩ := (runPrims_zero_once mag recs).2 hany
  rw [hab]
  have h1 : (a ++ Emission.torusMacroDecl :: b).findIdx isTorusMacro = a.length := by
    rw [findIdx_append_all_false _ a (fun x hx => (hA x hx).2) _]
    simp [List.findIdx_cons, isTorusMacro]
  have h2 : (a ++ Emission.torusMacroDecl :: b).findIdx isTorusObj =
      a.length + (b.findIdx isTorusObj + 1) := by
    rw [findIdx_append_all_false _ a (fun x hx => (hA x hx).1) _]
    simp [List.findIdx_cons, isTorusObj]
  rw [h1, h2]
  omega

/-- witness for `torus_macro_once` on a run containing one torus. -/
theorem torus_macro_once_witness :
    (runPrims mag0 0 [torRecW]).emits.findIdx isTorusMacro <
      (runPrims mag0 0 [torRecW]).emits.findIdx isTorusObj :=
  (torus_macro_once mag0 [torRecW]).2.1 (by decide)

/- ### Claim C9: fixed ARB8 triangulation -/

/-- C9: the ARB8 export emits exactly 12 triangles, in the fixed
deterministic order given by the constant index table `arbIdxTable`
(derived from the `coordinates` label array and the twelve triangle lines
of the source), independent of the input vertex coordinates — degenerate
or coincident vertices are not rejected since the emission is the same for
every vertex assignment.  Each triangle of the table lies on one of the
six logical faces, and each face is covered: it carries exactly two of
the twelve triangles and every vertex of the face is a corner of one of
them. -/
theorem arb8_fixed_triangulation (a : ArbParams) (mag : Vec3 → ℚ) (f : Int)
    (name path : String) (tp : TorParams) (gp : TgcParams) (ep : EllParams)
    (pp : PartParams) (bn : Bool) :
    arbTriangles a = arbIdxTable.map (fun t => (a.pt t.1, a.pt t.2.1, a.pt t.2.2)) ∧
      (arbTriangles a).length = 12 ∧
      (arbFaces.all fun face =>
        (arbIdxTable.filter fun t => triInFace t face).length == 2) = true ∧
      (arbIdxTable.all fun t => arbFaces.any fun face => triInFace t face) = true ∧
      (arbFaces.all fun face => face.all fun v => arbIdxTable.any fun t =>
        triInFace t face && (v == t.1 || v == t.2.1 || v == t.2.2)) = true ∧
      primitive_func mag f ⟨name, path, MajorType.brlcad, IdbType.arb8, tp, gp, ep, a, pp, bn⟩ =
        ⟨f, [Emission.arbBox a (arbTriangles a)], [LogMsg.leafVisit path]⟩ :=
  ⟨rfl, rfl, by decide, by decide, by decide, rfl⟩
